import Mathlib

/-!
Shallow embedding of the Smart Shelf reservation engine (src/src/main.py).

The program keeps two sqlite databases:
  - `storage_space_details` (the spot inventory): rows
    `(spot_id TEXT PRIMARY KEY, size TEXT, location TEXT, apartment TEXT DEFAULT '', occupied INTEGER DEFAULT 0)`.
    We model the table as a `List StorageSpot` in rowid (insertion) order; a
    `SELECT` without `ORDER BY` on this table is a full scan that returns rows
    in that order, and an `UPDATE`'s `cursor.rowcount` counts the rows matched
    by its `WHERE` clause.
  - `sessions`: a single row keyed by the fixed `SESSION_ID`, holding a JSON
    dict. The program only ever reads/writes the nine keys below, so the dict
    is modelled as a record of `Option` fields (`none` = key absent).

Python `dict[...]` access on a missing key raises `KeyError(key)`; we model the
operations that can raise as returning `SysState × Except PyErr Session` (the
database state is always present, the snapshot is the normal result).
-/

namespace SmartShelf

/-- One row of the `storage_space_details` table. `apartment` defaults to the
empty string and `occupied` to 0 (false), as in the CREATE TABLE statement. -/
structure StorageSpot where
  spot_id : String
  size : String
  location : String
  apartment : String := ""
  occupied : Bool := false
deriving DecidableEq

/-- One element of the `pkgs` list built by `find_packages`:
`{"spot_id": r[0], "size": r[1], "location": r[2]}`. -/
structure PackageInfo where
  spot_id : String
  size : String
  location : String
deriving DecidableEq

/-- The session JSON dict, restricted to the keys the program uses.
A `none` field models an absent key. -/
structure Session where
  size : Option String := none
  apartment_number : Option String := none
  spot_available : Option Bool := none
  spot_id : Option String := none
  spot_location : Option String := none
  reservation_status : Option Bool := none
  packages_found : Option Bool := none
  packages_info : Option (List PackageInfo) := none
  release_status : Option Bool := none
deriving DecidableEq

/-- The whole mutable state: the (at most one) row of the `sessions` table for
`SESSION_ID`, and the `storage_space_details` table in rowid order. -/
structure SysState where
  sessions : Option Session := none
  storage : List StorageSpot := []
deriving DecidableEq

/-- A Python exception escaping a tool function: `KeyError(key)` from a
missing session dict key. -/
inductive PyErr where
  | keyError (key : String)
deriving DecidableEq

/-- Embeds `get_or_create_session`: returns the current session dict and, when
no row existed, also inserts an empty one (`"{}"`). -/
def get_or_create_session (store : Option Session) : Option Session × Session :=
  match store with
  | none => (some {}, {})
  | some s => (some s, s)

/-- Embeds `set_in_session(key, value)`: read-modify-write upsert of one key.
The dict assignment `session[key] = value` is passed as the field update
`update`. -/
def set_in_session (store : Option Session) (update : Session → Session) : Option Session :=
  let got := get_or_create_session store
  some (update got.2)

/-- Embeds `delete_session`: deletes the (single) session row and reports via
the returned message whether a row was actually deleted (`cur.rowcount`). -/
def delete_session (store : Option Session) : Option Session × String :=
  let deleted_count : Nat := match store with | none => 0 | some _ => 1
  (none,
    if deleted_count > 0 then "Session deleted successfully."
    else "No session found to delete.")

/-- Embeds `set_size`. The Python signature annotates
`size: Literal["S", "M", "L"]`, but a `Literal` annotation is not enforced at
runtime: the body stores whatever string it is given, with no validation. -/
def set_size (st : SysState) (size : String) : SysState × Session :=
  let store := set_in_session st.sessions (fun s => { s with size := some size })
  let got := get_or_create_session store
  ({ st with sessions := got.1 }, got.2)

/-- Embeds Python `str.upper()` on one character, for the ASCII range
(codepoints 97-122 map down by 32; everything else is left unchanged).
Apartment identifiers in this system are ASCII. -/
def upperChar (c : Char) : Char :=
  if h : 97 ≤ c.toNat ∧ c.toNat ≤ 122 then
    Char.ofNatAux (c.toNat - 32) (Or.inl (by omega))
  else c

/-- Embeds Python `str.upper()` (ASCII range): maps `upperChar` over the
string's characters. -/
def pyUpper (s : String) : String := ⟨s.data.map upperChar⟩

/-- Embeds `set_apartment`: stores `apartment.upper()` under
`apartment_number`. -/
def set_apartment (st : SysState) (apartment : String) : SysState × Session :=
  let store := set_in_session st.sessions
    (fun s => { s with apartment_number := some (pyUpper apartment) })
  let got := get_or_create_session store
  ({ st with sessions := got.1 }, got.2)

/-- Embeds `find_available_spots`:
`SELECT spot_id, location FROM storage_space_details WHERE size=? AND occupied=0`
(no ORDER BY: rows come back in rowid order), then `spots[0]` when non-empty.
Reading `state["size"]` raises `KeyError("size")` when the key is absent. -/
def find_available_spots (st : SysState) : SysState × Except PyErr Session :=
  let got0 := get_or_create_session st.sessions
  match got0.2.size with
  | none => ({ st with sessions := got0.1 }, .error (.keyError "size"))
  | some sz =>
    let rows := st.storage.filter (fun sp => sp.size == sz && sp.occupied == false)
    let spots := rows.map (fun r => (r.spot_id, r.location))
    match spots with
    | first :: _ =>
      let store1 := set_in_session got0.1 (fun s => { s with spot_available := some true })
      let store2 := set_in_session store1 (fun s => { s with spot_id := some first.1 })
      let store3 := set_in_session store2 (fun s => { s with spot_location := some first.2 })
      let got := get_or_create_session store3
      ({ st with sessions := got.1 }, .ok got.2)
    | [] =>
      let store1 := set_in_session got0.1 (fun s => { s with spot_available := some false })
      let got := get_or_create_session store1
      ({ st with sessions := got.1 }, .ok got.2)

/-- Embeds `reserve_spot`:
`UPDATE storage_space_details SET occupied=1, apartment=? WHERE spot_id=? AND occupied=0`;
`success = c.rowcount > 0` where `rowcount` counts the rows matched by the
WHERE clause. The parameter tuple
`(state["apartment_number"], state["spot_id"])` is built left to right, so a
missing `apartment_number` raises first. -/
def reserve_spot (st : SysState) : SysState × Except PyErr Session :=
  let got0 := get_or_create_session st.sessions
  match got0.2.apartment_number with
  | none => ({ st with sessions := got0.1 }, .error (.keyError "apartment_number"))
  | some apt =>
    match got0.2.spot_id with
    | none => ({ st with sessions := got0.1 }, .error (.keyError "spot_id"))
    | some sid =>
      let storage1 := st.storage.map (fun sp =>
        if sp.spot_id = sid ∧ sp.occupied = false then
          { sp with occupied := true, apartment := apt }
        else sp)
      let rowcount := (st.storage.filter
        (fun sp => sp.spot_id == sid && sp.occupied == false)).length
      let success := decide (rowcount > 0)
      let store1 :=
        if success then
          set_in_session got0.1 (fun s => { s with reservation_status := some true })
        else
          set_in_session got0.1 (fun s => { s with reservation_status := some false })
      let got := get_or_create_session store1
      ({ st with sessions := got.1, storage := storage1 }, .ok got.2)

/-- Embeds `find_packages`:
`SELECT spot_id, size, location FROM storage_space_details WHERE apartment=? AND occupied=1`,
then `if c.rowcount > 0`. Python's sqlite3 leaves `cursor.rowcount` at `-1`
after a SELECT (it never reflects the number of fetched rows), so the
comparison is against `-1`, not `len(rows)`. -/
def find_packages (st : SysState) : SysState × Except PyErr Session :=
  let got0 := get_or_create_session st.sessions
  match got0.2.apartment_number with
  | none => ({ st with sessions := got0.1 }, .error (.keyError "apartment_number"))
  | some apt =>
    let rows := st.storage.filter (fun sp => sp.apartment == apt && sp.occupied == true)
    let pkgs := rows.map (fun r =>
      ({ spot_id := r.spot_id, size := r.size, location := r.location } : PackageInfo))
    let rowcount : Int := -1
    let store1 :=
      if rowcount > 0 then
        set_in_session got0.1 (fun s => { s with packages_found := some true })
      else
        set_in_session got0.1 (fun s => { s with packages_found := some false })
    let store2 := set_in_session store1 (fun s => { s with packages_info := some pkgs })
    let got := get_or_create_session store2
    ({ st with sessions := got.1 }, .ok got.2)

/-- Embeds `release_packages`:
`UPDATE storage_space_details SET occupied=0, apartment='' WHERE apartment=?`;
`count = c.rowcount` counts the rows matched by the WHERE clause (whether or
not their values change). -/
def release_packages (st : SysState) : SysState × Except PyErr Session :=
  let got0 := get_or_create_session st.sessions
  match got0.2.apartment_number with
  | none => ({ st with sessions := got0.1 }, .error (.keyError "apartment_number"))
  | some apt =>
    let storage1 := st.storage.map (fun sp =>
      if sp.apartment = apt then { sp with occupied := false, apartment := "" } else sp)
    let count := (st.storage.filter (fun sp => sp.apartment == apt)).length
    let store1 :=
      if count > 0 then
        set_in_session got0.1 (fun s => { s with release_status := some true })
      else
        set_in_session got0.1 (fun s => { s with release_status := some false })
    let got := get_or_create_session store1
    ({ st with sessions := got.1, storage := storage1 }, .ok got.2)

/-- The spec's StorageSpot invariant, stated over the whole inventory:
`occupied == (occupant != empty)` for every spot. -/
def invariantHolds (storage : List StorageSpot) : Prop :=
  ∀ sp ∈ storage, sp.occupied = true ↔ sp.apartment ≠ ""

/-- Lexicographic comparison of character lists by codepoint, used to state
the spec's "ascending spot_id" order in a computable form. -/
def charListLe : List Char → List Char → Bool
  | [], _ => true
  | _ :: _, [] => false
  | a :: as, b :: bs =>
    if a.toNat < b.toNat then true
    else if b.toNat < a.toNat then false
    else charListLe as bs

/-- Lexicographic order on strings by codepoint. -/
def spotIdLe (a b : String) : Bool := charListLe a.data b.data

/-- Modelled from the spec's words for comparison with `find_available_spots`:
the first `spot_id` of the unoccupied-spot sequence of the given size, ordered
ascending by `spot_id` (i.e. the minimum `spot_id` among matching spots). -/
def ascendingFirstSpotId (storage : List StorageSpot) (sz : String) : Option String :=
  ((storage.filter (fun sp => sp.size == sz && sp.occupied == false)).map
    (fun sp => sp.spot_id)).foldl
      (fun acc a =>
        match acc with
        | none => some a
        | some b => if spotIdLe a b then some a else some b) none

theorem toNat_upperChar (c : Char) :
    (upperChar c).toNat =
      if 97 ≤ c.toNat ∧ c.toNat ≤ 122 then c.toNat - 32 else c.toNat := by
  unfold upperChar
  split <;> rfl

theorem upperChar_eq_self {c : Char} (h : ¬ (97 ≤ c.toNat ∧ c.toNat ≤ 122)) :
    upperChar c = c := by
  unfold upperChar
  rw [dif_neg h]

theorem upperChar_idem (c : Char) : upperChar (upperChar c) = upperChar c := by
  by_cases h : 97 ≤ c.toNat ∧ c.toNat ≤ 122
  · have h1 : (upperChar c).toNat = c.toNat - 32 := by
      rw [toNat_upperChar, if_pos h]
    exact upperChar_eq_self (by omega)
  · rw [upperChar_eq_self h]
    exact upperChar_eq_self h

theorem pyUpper_idem (s : String) : pyUpper (pyUpper s) = pyUpper s := by
  unfold pyUpper
  congr 1
  show (s.data.map upperChar).map upperChar = s.data.map upperChar
  rw [List.map_map]
  have h : upperChar ∘ upperChar = upperChar := funext upperChar_idem
  rw [h]

example : pyUpper "3b" = "3B" := by decide

example : pyUpper "abz09XY-" = "ABZ09XY-" := by decide

instance invariantHolds.dec (storage : List StorageSpot) :
    Decidable (invariantHolds storage) :=
  inferInstanceAs (Decidable (∀ sp ∈ storage, sp.occupied = true ↔ sp.apartment ≠ ""))

theorem length_filter_pos_iff {α : Type} (p : α → Bool) (l : List α) :
    0 < (l.filter p).length ↔ ∃ a ∈ l, p a = true := by
  rw [← List.countP_eq_length_filter, List.countP_pos_iff]

theorem get_or_create_some (s : Session) :
    get_or_create_session (some s) = (some s, s) := rfl

theorem set_in_session_some (s : Session) (update : Session → Session) :
    set_in_session (some s) update = some (update s) := rfl

theorem set_in_session_after_get (store : Option Session) (update : Session → Session) :
    set_in_session (get_or_create_session store).1 update =
      some (update (get_or_create_session store).2) := by
  cases store <;> rfl

theorem find_available_spots_storage (st : SysState) :
    (find_available_spots st).1.storage = st.storage := by
  simp only [find_available_spots]
  split
  · rfl
  · split <;> rfl

theorem find_packages_storage (st : SysState) :
    (find_packages st).1.storage = st.storage := by
  simp only [find_packages]
  split <;> rfl

/-- C9: reset (`delete_session`) removes the session record and reports
whether one existed; deleting when no session exists is not an error, so a
second call in a row succeeds and reports that there was no session to
delete. -/
theorem delete_session_idempotent (store : Option Session) :
    (delete_session store).1 = none ∧
    ((delete_session store).2 = "Session deleted successfully." ↔ store.isSome = true) ∧
    delete_session (delete_session store).1 = (none, "No session found to delete.") := by
  cases store with
  | none => exact ⟨rfl, iff_of_false (by decide) (by decide), rfl⟩
  | some s => exact ⟨rfl, iff_of_true rfl rfl, rfl⟩

/-- C10: the query operations `find_available_spots` and `find_packages` never
mutate the spot inventory: for every starting state the storage table is
identical before and after either operation. -/
theorem queries_never_mutate_inventory (st : SysState) :
    (find_available_spots st).1.storage = st.storage ∧
    (find_packages st).1.storage = st.storage :=
  ⟨find_available_spots_storage st, find_packages_storage st⟩

/-- C3 is a code defect: apartment "4A" occupies spot "M-1", yet
`find_packages` records `packages_found = false` while simultaneously storing
the non-empty `packages_info` list, because it tests `cursor.rowcount > 0`
after a SELECT and sqlite3 pins `rowcount` at `-1` for SELECT statements. -/
theorem find_packages_found_flag_false_despite_matches :
    (find_packages
      { sessions := some { apartment_number := some "4A" },
        storage := [{ spot_id := "M-1", size := "M", location := "Main Area",
                      apartment := "4A", occupied := true }] }).2 =
      .ok { apartment_number := some "4A", packages_found := some false,
            packages_info := some [{ spot_id := "M-1", size := "M", location := "Main Area" }] } :=
  rfl

/-- C4 is a code defect: `set_size` declares `Literal["S", "M", "L"]` but a
Python `Literal` annotation is not checked at runtime and the body has no
validation, so `set_size("XL")` raises nothing and overwrites the session's
prior `size = "M"` with `"XL"`. -/
theorem set_size_persists_invalid_literal :
    (set_size { sessions := some { size := some "M" }, storage := [] } "XL").2.size
        = some "XL" ∧
    (set_size { sessions := some { size := some "M" }, storage := [] } "XL").1.sessions
        = some { size := some "XL" } :=
  ⟨rfl, rfl⟩

/-- C8: `set_apartment` normalizes its argument to uppercase before
persisting, so for every string `s`, `set_apartment` applied to `s` and to
`s.upper()` produce identical results (hence an identical stored
`apartment_number`), and later lookups (`find_packages`) from the two
resulting states resolve to the same occupant key and agree completely. -/
theorem set_apartment_uppercase_normalized (st : SysState) (s : String) :
    set_apartment st s = set_apartment st (pyUpper s) ∧
    (set_apartment st s).2.apartment_number = some (pyUpper s) ∧
    find_packages (set_apartment st s).1 = find_packages (set_apartment st (pyUpper s)).1 := by
  have h : set_apartment st s = set_apartment st (pyUpper s) := by
    unfold set_apartment
    rw [pyUpper_idem]
  exact ⟨h, rfl, by rw [h]⟩

/-- C7: every Reservation Engine operation that reads a required session
field a prior step has not set fails by raising `KeyError` naming the missing
field (the concrete realization of the spec's MissingFieldError), rather than
silently defaulting it: `find_available_spots` for `size`; `reserve_spot` for
`apartment_number` and then `spot_id` (the Python parameter tuple is built
left to right); `find_packages` and `release_packages` for
`apartment_number`. -/
theorem missing_session_field_raises (st : SysState) :
    ((get_or_create_session st.sessions).2.size = none →
      (find_available_spots st).2 = .error (.keyError "size")) ∧
    ((get_or_create_session st.sessions).2.apartment_number = none →
      (reserve_spot st).2 = .error (.keyError "apartment_number")) ∧
    (∀ apt, (get_or_create_session st.sessions).2.apartment_number = some apt →
      (get_or_create_session st.sessions).2.spot_id = none →
      (reserve_spot st).2 = .error (.keyError "spot_id")) ∧
    ((get_or_create_session st.sessions).2.apartment_number = none →
      (find_packages st).2 = .error (.keyError "apartment_number")) ∧
    ((get_or_create_session st.sessions).2.apartment_number = none →
      (release_packages st).2 = .error (.keyError "apartment_number")) := by
  refine ⟨fun h => ?_, fun h => ?_, fun apt ha hs => ?_, fun h => ?_, fun h => ?_⟩
  · simp only [find_available_spots, h]
  · simp only [reserve_spot, h]
  · simp only [reserve_spot, ha, hs]
  · simp only [find_packages, h]
  · simp only [release_packages, h]

/-- Witness for C7 at concrete inputs: an absent session (all fields missing)
for the four apartment/size reads, and a session holding only
`apartment_number` for the `spot_id` read. -/
theorem missing_session_field_raises_witness :
    (find_available_spots { sessions := none, storage := [] }).2
      = .error (.keyError "size") ∧
    (reserve_spot { sessions := none, storage := [] }).2
      = .error (.keyError "apartment_number") ∧
    (reserve_spot { sessions := some { apartment_number := some "4A" }, storage := [] }).2
      = .error (.keyError "spot_id") ∧
    (find_packages { sessions := none, storage := [] }).2
      = .error (.keyError "apartment_number") ∧
    (release_packages { sessions := none, storage := [] }).2
      = .error (.keyError "apartment_number") :=
  ⟨(missing_session_field_raises { sessions := none, storage := [] }).1 rfl,
   (missing_session_field_raises { sessions := none, storage := [] }).2.1 rfl,
   (missing_session_field_raises
      { sessions := some { apartment_number := some "4A" }, storage := [] }).2.2.1 "4A" rfl rfl,
   (missing_session_field_raises { sessions := none, storage := [] }).2.2.2.1 rfl,
   (missing_session_field_raises { sessions := none, storage := [] }).2.2.2.2 rfl⟩

/-- C1: `reserve_spot` performs one conditional write: it sets
`occupied := true` and `apartment := apartment_number` exactly on the spots
carrying the session's `spot_id` that are currently unoccupied, and the
returned snapshot records `reservation_status = true` precisely when such a
spot exists, `reservation_status = false` when the spot is already taken or
does not exist. -/
theorem reserve_spot_conditional_write (st : SysState) (apt sid : String)
    (hapt : (get_or_create_session st.sessions).2.apartment_number = some apt)
    (hsid : (get_or_create_session st.sessions).2.spot_id = some sid) :
    (reserve_spot st).1.storage = st.storage.map (fun sp =>
      if sp.spot_id = sid ∧ sp.occupied = false then
        { sp with occupied := true, apartment := apt }
      else sp) ∧
    ∃ snap, (reserve_spot st).2 = .ok snap ∧
      snap.reservation_status =
        some (decide (0 < (st.storage.filter
          (fun sp => sp.spot_id == sid && sp.occupied == false)).length)) ∧
      (0 < (st.storage.filter
          (fun sp => sp.spot_id == sid && sp.occupied == false)).length ↔
        ∃ sp ∈ st.storage, sp.spot_id = sid ∧ sp.occupied = false) := by
  have hiff : (0 < (st.storage.filter
      (fun sp => sp.spot_id == sid && sp.occupied == false)).length ↔
      ∃ sp ∈ st.storage, sp.spot_id = sid ∧ sp.occupied = false) := by
    rw [length_filter_pos_iff]
    simp
  refine ⟨?_, ?_⟩
  · simp only [reserve_spot, hapt, hsid]
  · by_cases hp : 0 < (st.storage.filter
        (fun sp => sp.spot_id == sid && sp.occupied == false)).length
    · refine ⟨{ (get_or_create_session st.sessions).2 with reservation_status := some true },
        ?_, by rw [decide_eq_true hp], hiff⟩
      simp only [reserve_spot, hapt, hsid, set_in_session_after_get, get_or_create_some]
      rw [if_pos (decide_eq_true hp)]
      rfl
    · refine ⟨{ (get_or_create_session st.sessions).2 with reservation_status := some false },
        ?_, by rw [decide_eq_false hp], hiff⟩
      simp only [reserve_spot, hapt, hsid, set_in_session_after_get, get_or_create_some]
      rw [if_neg (by simp only [decide_eq_true_eq]; exact hp)]
      rfl

/-- Witness for C1: a session targeting the unoccupied spot "M-1" for
apartment "4A"; the write applies and the snapshot reports success. -/
theorem reserve_spot_conditional_write_witness :
    (reserve_spot
      { sessions := some { apartment_number := some "4A", spot_id := some "M-1" },
        storage := [{ spot_id := "M-1", size := "M", location := "Main Area" }] }).1.storage
      = [{ spot_id := "M-1", size := "M", location := "Main Area",
           apartment := "4A", occupied := true }] ∧
    ∃ snap,
      (reserve_spot
        { sessions := some { apartment_number := some "4A", spot_id := some "M-1" },
          storage := [{ spot_id := "M-1", size := "M", location := "Main Area" }] }).2
        = .ok snap ∧
      snap.reservation_status = some true ∧
      (0 < (([{ spot_id := "M-1", size := "M", location := "Main Area" }] : List StorageSpot).filter
          (fun sp => sp.spot_id == "M-1" && sp.occupied == false)).length ↔
        ∃ sp ∈ ([{ spot_id := "M-1", size := "M", location := "Main Area" }] : List StorageSpot),
          sp.spot_id = "M-1" ∧ sp.occupied = false) :=
  reserve_spot_conditional_write
    { sessions := some { apartment_number := some "4A", spot_id := some "M-1" },
      storage := [{ spot_id := "M-1", size := "M", location := "Main Area" }] }
    "4A" "M-1" rfl rfl

/-- C5 amended: `release_packages` clears `occupied`/`occupant` for exactly
the spots whose occupant column equals the session's `apartment_number` (the
UPDATE's WHERE clause tests the occupant column alone, not the occupied
flag), and records `release_status = true` exactly when the number of matched
rows is positive. When `apartment_number` is non-empty and the occupancy
invariant holds, the matched spots are exactly the spots occupied by that
apartment and the original claim's reading is recovered; for an empty
`apartment_number` the match also counts unoccupied spots. -/
theorem release_packages_matched_rows (st : SysState) (apt : String)
    (hapt : (get_or_create_session st.sessions).2.apartment_number = some apt) :
    (release_packages st).1.storage = st.storage.map (fun sp =>
      if sp.apartment = apt then { sp with occupied := false, apartment := "" } else sp) ∧
    (∃ snap, (release_packages st).2 = .ok snap ∧
      snap.release_status =
        some (decide (0 < (st.storage.filter (fun sp => sp.apartment == apt)).length)) ∧
      (0 < (st.storage.filter (fun sp => sp.apartment == apt)).length ↔
        ∃ sp ∈ st.storage, sp.apartment = apt)) ∧
    (apt ≠ "" → invariantHolds st.storage →
      ((∃ sp ∈ st.storage, sp.apartment = apt) ↔
        ∃ sp ∈ st.storage, sp.apartment = apt ∧ sp.occupied = true)) := by
  have hiff : (0 < (st.storage.filter (fun sp => sp.apartment == apt)).length ↔
      ∃ sp ∈ st.storage, sp.apartment = apt) := by
    rw [length_filter_pos_iff]
    simp
  refine ⟨?_, ?_, ?_⟩
  · simp only [release_packages, hapt]
  · by_cases hp : 0 < (st.storage.filter (fun sp => sp.apartment == apt)).length
    · refine ⟨{ (get_or_create_session st.sessions).2 with release_status := some true },
        ?_, by rw [decide_eq_true hp], hiff⟩
      simp only [release_packages, hapt, set_in_session_after_get, get_or_create_some]
      rw [if_pos hp]
      rfl
    · refine ⟨{ (get_or_create_session st.sessions).2 with release_status := some false },
        ?_, by rw [decide_eq_false hp], hiff⟩
      simp only [release_packages, hapt, set_in_session_after_get, get_or_create_some]
      rw [if_neg hp]
      rfl
  · intro hne hinv
    constructor
    · rintro ⟨sp, hmem, heq⟩
      refine ⟨sp, hmem, heq, (hinv sp hmem).mpr ?_⟩
      rw [heq]
      exact hne
    · rintro ⟨sp, hmem, heq, _⟩
      exact ⟨sp, hmem, heq⟩

/-- Witness for C5's amended theorem: apartment "4A" occupies "M-1"; the
release clears it and reports `release_status = true`. -/
theorem release_packages_matched_rows_witness :
    (release_packages
      { sessions := some { apartment_number := some "4A" },
        storage := [{ spot_id := "M-1", size := "M", location := "Main Area",
                      apartment := "4A", occupied := true }] }).1.storage
      = [{ spot_id := "M-1", size := "M", location := "Main Area" }] ∧
    (∃ snap,
      (release_packages
        { sessions := some { apartment_number := some "4A" },
          storage := [{ spot_id := "M-1", size := "M", location := "Main Area",
                        apartment := "4A", occupied := true }] }).2 = .ok snap ∧
      snap.release_status = some true ∧
      (0 < (([{ spot_id := "M-1", size := "M", location := "Main Area",
                apartment := "4A", occupied := true }] : List StorageSpot).filter
          (fun sp => sp.apartment == "4A")).length ↔
        ∃ sp ∈ ([{ spot_id := "M-1", size := "M", location := "Main Area",
                   apartment := "4A", occupied := true }] : List StorageSpot),
          sp.apartment = "4A")) ∧
    (("4A" : String) ≠ "" →
      invariantHolds [{ spot_id := "M-1", size := "M", location := "Main Area",
                        apartment := "4A", occupied := true }] →
      ((∃ sp ∈ ([{ spot_id := "M-1", size := "M", location := "Main Area",
                   apartment := "4A", occupied := true }] : List StorageSpot),
          sp.apartment = "4A") ↔
        ∃ sp ∈ ([{ spot_id := "M-1", size := "M", location := "Main Area",
                   apartment := "4A", occupied := true }] : List StorageSpot),
          sp.apartment = "4A" ∧ sp.occupied = true)) :=
  release_packages_matched_rows
    { sessions := some { apartment_number := some "4A" },
      storage := [{ spot_id := "M-1", size := "M", location := "Main Area",
                    apartment := "4A", occupied := true }] }
    "4A" rfl

/-- C5 is false as stated: with an empty `apartment_number` (reachable via
`set_apartment("")`) and one unoccupied spot, no spot is occupied by that
apartment and no spot changes, yet `release_packages` records
`release_status = true` — the claim requires `false` — because the UPDATE's
WHERE clause matches every row whose occupant column is `""`, which includes
every unoccupied spot. -/
theorem release_status_true_with_nothing_released :
    (∀ sp ∈ ({ sessions := some { apartment_number := some "" },
               storage := [{ spot_id := "M-1", size := "M", location := "Main Area" }] } : SysState).storage,
      sp.occupied = false) ∧
    (release_packages
      { sessions := some { apartment_number := some "" },
        storage := [{ spot_id := "M-1", size := "M", location := "Main Area" }] }).1.storage
      = [{ spot_id := "M-1", size := "M", location := "Main Area" }] ∧
    (release_packages
      { sessions := some { apartment_number := some "" },
        storage := [{ spot_id := "M-1", size := "M", location := "Main Area" }] }).2
      = .ok { apartment_number := some "", release_status := some true } :=
  ⟨by decide, rfl, rfl⟩

/-- C6 amended: given the session's `size`, `find_available_spots` either
(a) when at least one unoccupied spot of that size exists, deterministically
picks the first entry of the unoccupied-spot sequence in inventory table
(rowid/insertion) order — which coincides with ascending `spot_id` only when
the inventory was inserted in that order — and records
`spot_available = true`, `spot_id` and `spot_location`, or (b) when none
exists, records `spot_available = false` and leaves `spot_id` and
`spot_location` unchanged (it does not write them); in both cases it returns
the session snapshot rather than failing, and never mutates the inventory. -/
theorem find_available_spots_first_in_table_order (st : SysState) (sz : String)
    (hsz : (get_or_create_session st.sessions).2.size = some sz) :
    (find_available_spots st).1.storage = st.storage ∧
    ∃ snap, (find_available_spots st).2 = .ok snap ∧
      (match st.storage.filter (fun sp => sp.size == sz && sp.occupied == false) with
       | [] => snap.spot_available = some false ∧
           snap.spot_id = (get_or_create_session st.sessions).2.spot_id ∧
           snap.spot_location = (get_or_create_session st.sessions).2.spot_location
       | first :: _ => snap.spot_available = some true ∧
           snap.spot_id = some first.spot_id ∧
           snap.spot_location = some first.location) := by
  refine ⟨find_available_spots_storage st, ?_⟩
  simp only [find_available_spots, hsz]
  cases hrows : st.storage.filter (fun sp => sp.size == sz && sp.occupied == false) with
  | nil =>
    simp only [List.map_nil, set_in_session_after_get, get_or_create_some]
    exact ⟨_, rfl, rfl, rfl, rfl⟩
  | cons first rest =>
    simp only [List.map_cons, set_in_session_after_get, set_in_session_some, get_or_create_some]
    exact ⟨_, rfl, rfl, rfl, rfl⟩

/-- Witness for C6's amended theorem: one free "M-1" spot of size M; the
first (and only) row is picked and recorded. -/
theorem find_available_spots_first_in_table_order_witness :
    (find_available_spots
      { sessions := some { size := some "M" },
        storage := [{ spot_id := "M-1", size := "M", location := "Main Area" }] }).1.storage
      = [{ spot_id := "M-1", size := "M", location := "Main Area" }] ∧
    ∃ snap,
      (find_available_spots
        { sessions := some { size := some "M" },
          storage := [{ spot_id := "M-1", size := "M", location := "Main Area" }] }).2
        = .ok snap ∧
      snap.spot_available = some true ∧
      snap.spot_id = some "M-1" ∧
      snap.spot_location = some "Main Area" :=
  find_available_spots_first_in_table_order
    { sessions := some { size := some "M" },
      storage := [{ spot_id := "M-1", size := "M", location := "Main Area" }] }
    "M" rfl

/-- C6 is false as stated: with the inventory holding two free M spots
inserted in the order "M-2", "M-1" (the bootstrap inserts rows in the order
the config lists them, and the availability SELECT has no ORDER BY, so a full
scan yields rowid order), `find_available_spots` records `spot_id = "M-2"`,
while the first entry of the sequence ordered ascending by spot_id is
"M-1". -/
theorem first_spot_not_ascending_order :
    (find_available_spots
      { sessions := some { size := some "M" },
        storage := [{ spot_id := "M-2", size := "M", location := "Main Area" },
                    { spot_id := "M-1", size := "M", location := "Main Area" }] }).2
      = .ok { size := some "M", spot_available := some true,
              spot_id := some "M-2", spot_location := some "Main Area" } ∧
    ascendingFirstSpotId
      [{ spot_id := "M-2", size := "M", location := "Main Area" },
       { spot_id := "M-1", size := "M", location := "Main Area" }] "M" = some "M-1" ∧
    ("M-2" : String) ≠ "M-1" :=
  ⟨rfl, rfl, by decide⟩

/-- C2 is false as stated (for an empty `apartment_number`, which the claim
explicitly includes): starting from a state satisfying the occupancy
invariant, with `apartment_number = ""` (reachable via `set_apartment("")`)
targeting the free spot "M-1", `reserve_spot` leaves the spot with
`occupied = true` and occupant `""`, violating
`occupied == (occupant != empty)`. -/
theorem invariant_broken_by_empty_apartment :
    invariantHolds
      ({ sessions := some { apartment_number := some "", spot_id := some "M-1" },
         storage := [{ spot_id := "M-1", size := "M", location := "Main Area" }] } : SysState).storage ∧
    ¬ invariantHolds
      (reserve_spot
        { sessions := some { apartment_number := some "", spot_id := some "M-1" },
          storage := [{ spot_id := "M-1", size := "M", location := "Main Area" }] }).1.storage :=
  ⟨by decide, by decide⟩

/-- C2 amended: `occupied == (occupant != empty)` is preserved by
`reserve_spot`, `release_packages` and the query operations
`find_available_spots` and `find_packages`, provided the session's
`apartment_number`, when present, is non-empty; `reserve_spot` with an empty
`apartment_number` breaks the invariant. -/
theorem occupancy_invariant_preserved (st : SysState)
    (hinv : invariantHolds st.storage)
    (hapt : ∀ apt, (get_or_create_session st.sessions).2.apartment_number = some apt → apt ≠ "") :
    invariantHolds (reserve_spot st).1.storage ∧
    invariantHolds (release_packages st).1.storage ∧
    invariantHolds (find_available_spots st).1.storage ∧
    invariantHolds (find_packages st).1.storage := by
  refine ⟨?_, ?_, by rw [find_available_spots_storage]; exact hinv,
    by rw [find_packages_storage]; exact hinv⟩
  · cases ha : (get_or_create_session st.sessions).2.apartment_number with
    | none =>
      simp only [reserve_spot, ha]
      exact hinv
    | some apt =>
      cases hs : (get_or_create_session st.sessions).2.spot_id with
      | none =>
        simp only [reserve_spot, ha, hs]
        exact hinv
      | some sid =>
        have hne := hapt apt ha
        simp only [reserve_spot, ha, hs]
        intro sp' hmem
        rw [List.mem_map] at hmem
        obtain ⟨sp, hsp, rfl⟩ := hmem
        by_cases hcond : sp.spot_id = sid ∧ sp.occupied = false
        · rw [if_pos hcond]
          exact ⟨fun _ => hne, fun _ => rfl⟩
        · rw [if_neg hcond]
          exact hinv sp hsp
  · cases ha : (get_or_create_session st.sessions).2.apartment_number with
    | none =>
      simp only [release_packages, ha]
      exact hinv
    | some apt =>
      simp only [release_packages, ha]
      intro sp' hmem
      rw [List.mem_map] at hmem
      obtain ⟨sp, hsp, rfl⟩ := hmem
      by_cases hcond : sp.apartment = apt
      · rw [if_pos hcond]
        simp
      · rw [if_neg hcond]
        exact hinv sp hsp

/-- Witness for C2's amended theorem: a non-empty apartment "4A" reserving
the free spot "M-1"; all four operations preserve the invariant. -/
theorem occupancy_invariant_preserved_witness :
    invariantHolds
      (reserve_spot
        { sessions := some { apartment_number := some "4A", spot_id := some "M-1", size := some "M" },
          storage := [{ spot_id := "M-1", size := "M", location := "Main Area" }] }).1.storage ∧
    invariantHolds
      (release_packages
        { sessions := some { apartment_number := some "4A", spot_id := some "M-1", size := some "M" },
          storage := [{ spot_id := "M-1", size := "M", location := "Main Area" }] }).1.storage ∧
    invariantHolds
      (find_available_spots
        { sessions := some { apartment_number := some "4A", spot_id := some "M-1", size := some "M" },
          storage := [{ spot_id := "M-1", size := "M", location := "Main Area" }] }).1.storage ∧
    invariantHolds
      (find_packages
        { sessions := some { apartment_number := some "4A", spot_id := some "M-1", size := some "M" },
          storage := [{ spot_id := "M-1", size := "M", location := "Main Area" }] }).1.storage :=
  occupancy_invariant_preserved
    { sessions := some { apartment_number := some "4A", spot_id := some "M-1", size := some "M" },
      storage := [{ spot_id := "M-1", size := "M", location := "Main Area" }] }
    (by decide)
    (fun apt h => by
      injection h with h2
      exact h2 ▸ (by decide : ¬("4A" : String) = ""))

end SmartShelf
